import Mathlib

/-!
Verification development for the synergy-wholesale-exporter repository.

The Go sources are embedded shallowly:
* `DomainInfo`, `DomainList`, `ListDomainsResponse` mirror the structs of
  `synergywholesaleapi/main.go` (Go zero values become the `empty*` definitions).
* `dateStringToTimestamp` mirrors the function of the same name, with Go's
  `time.ParseInLocation` on the fixed layout `2006-01-02 15:04:05` embedded as
  `parseDateTime` (including the `time` package's acceptance of a fractional
  second after the seconds field even when the layout has none), and the zone
  `Australia/Brisbane` embedded as the fixed offset +10:00 (the zone observes
  no daylight saving today; the trial daylight-saving summers of 1971-72 and
  1989-92 in tzdata are outside every date this development evaluates).
* `collectDomain` / `collect` / `describeMetricNames` mirror
  `Collector.Collect` and `Collector.Describe` of the exporter main package
  (gauge values, which Go converts with `float64(...)`, are kept as exact
  integers: every value produced by the code is a small integer, where the
  conversion is lossless).
* `createSOAPRequest` mirrors `createSOAPRequest` plus
  `ListDomainsRequest.MarshalXML` as an XML token stream.
* `unmarshalSOAPResponse` mirrors `UnmarshalSOAPResponse`, specialising the
  semantics of Go `encoding/xml` unmarshalling to the struct shapes of the
  package; the XML syntax layer is abstracted as `Option XmlNode` (`none`
  stands for bytes on which the decoder hits an XML syntax error).
* `getDomains` mirrors `getDomains` of the main package, with the two
  `time.Now()` reads of one call modelled as a single instant `now` and the
  outcome of the HTTP exchange plus decode passed in as an `Except` value.
* `concStep`/`runSchedule` model interleaved executions of the unsynchronized
  `getDomains` by two concurrent callers, each running its statements
  (freshness check, then fetch-and-store) as separate atomic steps, exactly
  as the lock-free Go code allows.
-/

set_option linter.dupNamespace false

namespace SynergyWholesaleExporter

/-! ## Data model (structs of `synergywholesaleapi/main.go`) -/

/-- Mirror of the Go struct `DomainInfo`; Go zero values are the defaults. -/
structure DomainInfo where
  Status : String := ""
  ErrorMessage : String := ""
  DomainName : String := ""
  DomainStatus : String := ""
  DomainCreated : String := ""
  DomainExpiry : String := ""
  CreatedDate : String := ""
  TransferStatus : String := ""
  AutoRenew : Int := 0
  NameServers : List String := []
  DNSSECKeys : List String := []
  deriving DecidableEq

/-- Mirror of the Go struct `SOAPResponseCommon`. -/
structure SOAPResponseCommon where
  Status : String := ""
  ErrorMessage : String := ""
  deriving DecidableEq

/-- Mirror of the Go struct `DomainList` (embeds `SOAPResponseCommon`). -/
structure DomainList where
  common : SOAPResponseCommon := {}
  DomainList : List DomainInfo := []
  deriving DecidableEq

/-- Mirror of the Go struct `ListDomainsResponse`. -/
structure ListDomainsResponse where
  Return : DomainList := {}
  deriving DecidableEq

/-- The Go zero value `api.ListDomainsResponse\x7b\x7d`. -/
def emptyListDomainsResponse : ListDomainsResponse := {}

/-! ## Date parsing (`dateStringToTimestamp` of `synergywholesaleapi/main.go`)

Go parses with `time.ParseInLocation("2006-01-02 15:04:05", s, loc)` where
`loc` is `Australia/Brisbane` (fixed UTC+10).  The layout demands:
a 4-digit year, `-`, a 2-digit month, `-`, a 2-digit day, a space, a 1- or
2-digit hour (Go's `stdHour` accepts one or two digits), `:`, a 2-digit
minute, `:`, a 2-digit second, then — although the layout has no
fractional-second chunk — Go's `stdSecond` case still consumes an optional
`.` or `,` followed by one or more digits, and finally no trailing
characters; month must lie in 1..12, day in 1..daysIn(month, year), hour in
0..23, minute and second in 0..59.  The consumed fractional digits become
nanoseconds, which `Unix()` discards, so they do not enter the result. -/

/-- Go's `isDigit` check on a character (ASCII `0`..`9`). -/
def isDigitChar (c : Char) : Bool := 48 ≤ c.toNat && c.toNat ≤ 57

/-- Numeric value of an ASCII digit character. -/
def digitVal (c : Char) : Nat := c.toNat - 48

/-- Go's `getnum` with `fixed = true`: exactly two digits. -/
def getnum2 : List Char → Option (Nat × List Char)
  | c1 :: c2 :: rest =>
      if isDigitChar c1 && isDigitChar c2 then
        some (digitVal c1 * 10 + digitVal c2, rest)
      else none
  | _ => none

/-- Go's `getnum` with `fixed = false`: one digit, or two when available. -/
def getnum1or2 : List Char → Option (Nat × List Char)
  | [] => none
  | c1 :: rest =>
      if isDigitChar c1 then
        match rest with
        | c2 :: rest2 =>
            if isDigitChar c2 then some (digitVal c1 * 10 + digitVal c2, rest2)
            else some (digitVal c1, rest)
        | [] => some (digitVal c1, [])
      else none

/-- Go's `stdLongYear`: exactly four digits. -/
def getnum4 : List Char → Option (Nat × List Char)
  | c1 :: c2 :: c3 :: c4 :: rest =>
      if isDigitChar c1 && isDigitChar c2 && isDigitChar c3 && isDigitChar c4 then
        some (digitVal c1 * 1000 + digitVal c2 * 100 + digitVal c3 * 10 + digitVal c4, rest)
      else none
  | _ => none

/-- Consume one expected literal layout character. -/
def expectChar (c : Char) : List Char → Option (List Char)
  | c1 :: rest => if c1 = c then some rest else none
  | [] => none

/-- Go's `isLeap` (`time` package). -/
def isLeapYear (y : Nat) : Bool := y % 4 = 0 && (y % 100 ≠ 0 || y % 400 = 0)

/-- Go's `daysIn(month, year)` for month in 1..12. -/
def daysIn (month year : Nat) : Nat :=
  if month = 2 then (if isLeapYear year then 29 else 28)
  else if month = 4 ∨ month = 6 ∨ month = 9 ∨ month = 11 then 30
  else 31

/-- Parsed calendar fields: year, month, day, hour, minute, second. -/
structure DateTimeFields where
  year : Nat
  month : Nat
  day : Nat
  hour : Nat
  minute : Nat
  second : Nat
  deriving DecidableEq

/-- Go's special case after the seconds field (`time/format.go`): when the
layout has no fractional-second chunk, an input `.` or `,` followed by at
least one digit is still consumed — the separator, the digit, and every
following digit (`parseNanoseconds` accepts any such digit run).  A lone
separator, or a separator followed by a non-digit, is left in place and then
trips the trailing-text check. -/
def dropFractionalSecond : List Char → List Char
  | c1 :: c2 :: rest =>
      if (c1 = '.' ∨ c1 = ',') ∧ isDigitChar c2 then rest.dropWhile isDigitChar
      else c1 :: c2 :: rest
  | cs => cs

/-- Embedding of Go `time.ParseInLocation` with layout `2006-01-02 15:04:05`:
`none` exactly when Go returns a parse error (bad shape, extra text after the
optional fractional second, or a field out of range).  The fractional-second
digits, when present, are consumed and dropped: they only set the nanosecond
part, which `dateStringToTimestamp` never reads because `Unix()` truncates to
whole seconds. -/
def parseDateTime (cs : List Char) : Option DateTimeFields := do
  let (year, cs) ← getnum4 cs
  let cs ← expectChar '-' cs
  let (month, cs) ← getnum2 cs
  if month = 0 ∨ 12 < month then none else
  let cs ← expectChar '-' cs
  let (day, cs) ← getnum2 cs
  let cs ← expectChar ' ' cs
  let (hour, cs) ← getnum1or2 cs
  if 24 ≤ hour then none else
  let cs ← expectChar ':' cs
  let (minute, cs) ← getnum2 cs
  if 60 ≤ minute then none else
  let cs ← expectChar ':' cs
  let (second, cs) ← getnum2 cs
  if 60 ≤ second then none else
  let cs := dropFractionalSecond cs
  match cs with
  | _ :: _ => none
  | [] =>
      if day = 0 ∨ daysIn month year < day then none
      else some ⟨year, month, day, hour, minute, second⟩

/-- Days from 1970-01-01 to the given civil date (proleptic Gregorian);
floor division makes the formula valid for every year the parser accepts. -/
def daysFromCivil (y m d : Int) : Int :=
  let yAdj : Int := if m ≤ 2 then y - 1 else y
  let era : Int := Int.fdiv yAdj 400
  let yoe : Int := yAdj - era * 400
  let mp : Int := if 2 < m then m - 3 else m + 9
  let doy : Int := Int.fdiv (153 * mp + 2) 5 + d - 1
  let doe : Int := yoe * 365 + Int.fdiv yoe 4 - Int.fdiv yoe 100 + doy
  era * 146097 + doe - 719468

/-- The fixed UTC offset of Australia/Brisbane, in seconds. -/
def brisbaneOffsetSeconds : Int := 36000

/-- Mirror of `dateStringToTimestamp`: empty string to 0, parse failure to 0,
otherwise the UTC Unix timestamp of the parsed local time at UTC+10. -/
def dateStringToTimestamp (dateString : String) : Int :=
  if dateString = "" then 0
  else
    match parseDateTime dateString.toList with
    | none => 0
    | some f =>
        daysFromCivil (f.year : Int) (f.month : Int) (f.day : Int) * 86400 +
          ((f.hour : Int) * 3600 + (f.minute : Int) * 60 + (f.second : Int)) -
          brisbaneOffsetSeconds

example : dateStringToTimestamp "2025-12-25 10:00:00" = 1766620800 := by decide
example : dateStringToTimestamp "" = 0 := by decide
example : dateStringToTimestamp "hello" = 0 := by decide
example : dateStringToTimestamp "2025-13-01 10:00:00" = 0 := by decide
example : dateStringToTimestamp "2025-02-29 10:00:00" = 0 := by decide
example : dateStringToTimestamp "2024-02-29 00:00:00" = 1709128800 := by decide
example : dateStringToTimestamp "2025-12-25 10:00:00.5" = 1766620800 := by decide
example : dateStringToTimestamp "2025-12-25 10:00:00,123456789012" = 1766620800 := by decide
example : dateStringToTimestamp "2025-12-25 10:00:00." = 0 := by decide
example : dateStringToTimestamp "2025-12-25 10:00:00.5x" = 0 := by decide

/-! ## Metrics projector (`Collector.Collect` and `Collector.Describe`) -/

/-- One gauge sample sent on the collect channel: metric name (from the
corresponding `prometheus.Desc` of `newCollector`), gauge value, and label
pairs in the order the descriptor declares them. -/
structure Sample where
  name : String
  value : Int
  labels : List (String × String)
  deriving DecidableEq

/-- Samples `Collector.Collect` emits for one `DomainInfo`: records whose
`Status` is not `OK` are skipped by the `continue`; otherwise the auto-renew,
DNSSEC-key-count and expiry gauges are sent, followed by one name-server info
gauge per entry of `NameServers`. -/
def collectDomain (d : DomainInfo) : List Sample :=
  if d.Status ≠ "OK" then []
  else
    ⟨"domain_auto_renew_enable", d.AutoRenew, [("domain", d.DomainName)]⟩ ::
    ⟨"domain_dnssec_key_count", (d.DNSSECKeys.length : Int), [("domain", d.DomainName)]⟩ ::
    ⟨"domain_expiry_timestamp_seconds", dateStringToTimestamp d.DomainExpiry,
      [("domain", d.DomainName), ("status", d.DomainStatus)]⟩ ::
    d.NameServers.map (fun server =>
      ⟨"domain_name_server_info", 1, [("domain", d.DomainName), ("name_server_info", server)]⟩)

/-- `Collector.Collect` applied to a domain-list response: the loop over
`listDomainsResp.Return.DomainList`, in order. -/
def collect (resp : ListDomainsResponse) : List Sample :=
  resp.Return.DomainList.flatMap collectDomain

/-- The descriptors `Collector.Describe` sends on its channel, by metric name
and in program order: `domainAutoRenew`, `domainExpiry`, `domainNameServer`
(the `domainDNSSECKeyCount` descriptor is not sent). -/
def describeMetricNames : List String :=
  ["domain_auto_renew_enable", "domain_expiry_timestamp_seconds", "domain_name_server_info"]

/-! ## SOAP request encoding (`ListDomainsRequest.MarshalXML` and
`createSOAPRequest`)

The Go encoder is driven by `EncodeToken`/`EncodeElement` calls; the
embedding records the resulting token stream. -/

/-- Mirror of the Go struct `ListDomainsRequest`. -/
structure ListDomainsRequest where
  ApiKey : String
  ResellerID : String
  deriving DecidableEq

/-- One token of the XML encoder stream. -/
inductive XmlToken where
  | startTag (name : String) (attrs : List (String × String))
  | endTag (name : String)
  | chardata (s : String)
  deriving DecidableEq

/-- Tokens `EncodeElement` produces for one `item` struct of `MarshalXML`:
`item` wrapping a `key` element and a `value` element. -/
def itemTokens (key value : String) : List XmlToken :=
  [.startTag "item" [], .startTag "key" [], .chardata key, .endTag "key",
   .startTag "value" [], .chardata value, .endTag "value", .endTag "item"]

/-- Mirror of `ListDomainsRequest.MarshalXML`: the operation element is
renamed `ns1:listDomains`, the `param` element carries `xsi:type ns2:Map`,
and the `apiKey` item is encoded before the `resellerID` item. -/
def marshalListDomainsRequest (r : ListDomainsRequest) : List XmlToken :=
  [XmlToken.startTag "ns1:listDomains" [],
   XmlToken.startTag "param" [("xsi:type", "ns2:Map")]] ++
  itemTokens "apiKey" r.ApiKey ++
  itemTokens "resellerID" r.ResellerID ++
  [XmlToken.endTag "param", XmlToken.endTag "ns1:listDomains"]

/-- Namespace value of the `xmlns:SOAP-ENV` attribute set by `createSOAPRequest`. -/
def soapEnvelopeNamespace : String := "http://schemas.xmlsoap.org/soap/envelope/"

/-- Namespace value of the `xmlns:ns1` attribute set by `createSOAPRequest`. -/
def synergyApiNamespace : String := "http://api.synergywholesale.com"

/-- Namespace value of the `xmlns:ns2` attribute set by `createSOAPRequest`. -/
def apacheXmlSoapNamespace : String := "http://xml.apache.org/xml-soap"

/-- The encoded request document: whether `xml.Header` (the XML declaration)
is prepended, and the token stream of the marshalled envelope. -/
structure SOAPRequestDoc where
  hasXmlDeclaration : Bool
  tokens : List XmlToken
  deriving DecidableEq

/-- Mirror of `createSOAPRequest` on a `ListDomainsRequest`: the envelope
struct's attribute fields appear in declaration order (`xmlns:SOAP-ENV`,
`xmlns:ns1`, `xmlns:ns2`), the body element wraps the marshalled request, and
the XML declaration is prepended. -/
def createSOAPRequest (r : ListDomainsRequest) : SOAPRequestDoc :=
  ⟨true,
   [XmlToken.startTag "Envelope"
      [("xmlns:SOAP-ENV", soapEnvelopeNamespace),
       ("xmlns:ns1", synergyApiNamespace),
       ("xmlns:ns2", apacheXmlSoapNamespace)],
    XmlToken.startTag "Body" []] ++
   marshalListDomainsRequest r ++
   [XmlToken.endTag "Body", XmlToken.endTag "Envelope"]⟩

/-! ## SOAP response decoding (`UnmarshalSOAPResponse`)

`UnmarshalSOAPResponse` runs `xml.NewDecoder(...).Decode` into an
`apiSOAPEnvelope` whose body `Content` holds a `*ListDomainsResponse`.  The
semantics of Go `encoding/xml` specialised to these structs:

* the root element must be named `Envelope` (the `XMLName` tag), else error;
* among the envelope's children, each element named `Body` is unmarshalled
  into the body field; other children are skipped without error;
* every element child of `Body` is routed to the `,any` field `Content`, and
  the `XMLName` tag of `ListDomainsResponse` then requires the child to be
  named `listDomainsResponse`, else error;
* missing elements are not errors: absent `Body`, operation response or
  `return` simply leave the corresponding Go fields at their zero values;
* string fields take the concatenated character data of the matched element;
  the `int` field `autoRenew` goes through `strconv.ParseInt` after
  whitespace trimming and errors on non-numeric text;
* path tags `domainList>item`, `nameServers>item`, `DSData>item>UUID` append
  one entry per matched leaf, in document order.

The XML well-formedness layer is abstracted: the input is an
`Option XmlNode`, where `none` stands for bytes on which the decoder reports
an XML syntax error before completing the envelope. -/

/-- A parsed XML node: element with name, attributes and children, or
character data. -/
inductive XmlNode where
  | elem (name : String) (attrs : List (String × String)) (children : List XmlNode)
  | text (s : String)

/-- Concatenated character data directly inside an element, as Go collects it
for a string-typed field. -/
def chardataOf (children : List XmlNode) : String :=
  children.foldl (fun acc n =>
    match n with
    | XmlNode.text s => acc ++ s
    | XmlNode.elem _ _ _ => acc) ""

/-- Go's `unicode.IsSpace`, as `strings.TrimSpace` applies it: the
White_Space property — ASCII whitespace (tab through carriage return, space),
NEL, NBSP, Ogham space mark, the U+2000..U+200A spaces, the line and
paragraph separators, narrow no-break space, medium mathematical space, and
ideographic space. -/
def goIsSpace (c : Char) : Bool :=
  c = ' ' || c = '\t' || c = '\n' || (c.toNat = 11) || (c.toNat = 12) ||
    c = '\r' || (c.toNat = 133) || (c.toNat = 160) || (c.toNat = 5760) ||
    (8192 ≤ c.toNat && c.toNat ≤ 8202) || (c.toNat = 8232) || (c.toNat = 8233) ||
    (c.toNat = 8239) || (c.toNat = 8287) || (c.toNat = 12288)

/-- Digits-only accumulation for `strconv.ParseInt`. -/
def parseDigits : List Char → Option Nat
  | [] => none
  | cs => cs.foldl (fun acc c =>
      match acc with
      | none => none
      | some n => if isDigitChar c then some (n * 10 + digitVal c) else none)
      (some 0)

/-- Embedding of `strconv.ParseInt(strings.TrimSpace(s), 10, 64)` as Go's
`encoding/xml` applies it to an `int` field: optional sign, at least one
digit, all digits, 64-bit range. -/
def goParseInt (s : String) : Option Int := do
  let cs := (s.toList.dropWhile goIsSpace).reverse.dropWhile goIsSpace |>.reverse
  let (neg, digits) ←
    match cs with
    | '+' :: rest => some (false, rest)
    | '-' :: rest => some (true, rest)
    | rest => some (false, rest)
  match parseDigits digits with
  | none => none
  | some n =>
      let v : Int := if neg then -(n : Int) else (n : Int)
      if v < -(2 ^ 63) ∨ 2 ^ 63 ≤ v then none else some v

/-- Leaves matched by the path tag `nameServers>item`: the character data of
each `item` child, in document order. -/
def nameServerItems (children : List XmlNode) : List String :=
  children.foldl (fun acc n =>
    match n with
    | XmlNode.elem "item" _ c2 => acc ++ [chardataOf c2]
    | _ => acc) []

/-- Leaves matched by the path tag `DSData>item>UUID`: the character data of
each `UUID` child of each `item` child, in document order. -/
def dsDataUUIDs (children : List XmlNode) : List String :=
  children.foldl (fun acc n =>
    match n with
    | XmlNode.elem "item" _ c2 =>
        acc ++ c2.foldl (fun acc2 m =>
          match m with
          | XmlNode.elem "UUID" _ c3 => acc2 ++ [chardataOf c3]
          | _ => acc2) []
    | _ => acc) []

/-- Unmarshal one child element of a `DomainInfo` item into the accumulated
struct; only `autoRenew` can fail, through `strconv.ParseInt`. -/
def applyDomainInfoChild (d : DomainInfo) : XmlNode → Except String DomainInfo
  | XmlNode.elem "status" _ ch => .ok { d with Status := chardataOf ch }
  | XmlNode.elem "errorMessage" _ ch => .ok { d with ErrorMessage := chardataOf ch }
  | XmlNode.elem "domainName" _ ch => .ok { d with DomainName := chardataOf ch }
  | XmlNode.elem "domain_status" _ ch => .ok { d with DomainStatus := chardataOf ch }
  | XmlNode.elem "domain_created" _ ch => .ok { d with DomainCreated := chardataOf ch }
  | XmlNode.elem "domain_expiry" _ ch => .ok { d with DomainExpiry := chardataOf ch }
  | XmlNode.elem "createdDate" _ ch => .ok { d with CreatedDate := chardataOf ch }
  | XmlNode.elem "transfer_status" _ ch => .ok { d with TransferStatus := chardataOf ch }
  | XmlNode.elem "autoRenew" _ ch =>
      match goParseInt (chardataOf ch) with
      | some n => .ok { d with AutoRenew := n }
      | none => .error "cannot unmarshal autoRenew into int"
  | XmlNode.elem "nameServers" _ ch =>
      .ok { d with NameServers := d.NameServers ++ nameServerItems ch }
  | XmlNode.elem "DSData" _ ch =>
      .ok { d with DNSSECKeys := d.DNSSECKeys ++ dsDataUUIDs ch }
  | _ => .ok d

/-- Unmarshal the children of one `domainList` item into a `DomainInfo`. -/
def decodeDomainInfo (init : DomainInfo) (children : List XmlNode) : Except String DomainInfo :=
  children.foldlM applyDomainInfoChild init

/-- Unmarshal one child element of `return` into the accumulated
`DomainList` (fields of the embedded `SOAPResponseCommon` are promoted). -/
def applyDomainListChild (dl : DomainList) : XmlNode → Except String DomainList
  | XmlNode.elem "status" _ ch =>
      .ok { dl with common := { dl.common with Status := chardataOf ch } }
  | XmlNode.elem "errorMessage" _ ch =>
      .ok { dl with common := { dl.common with ErrorMessage := chardataOf ch } }
  | XmlNode.elem "domainList" _ ch =>
      ch.foldlM (fun acc n =>
        match n with
        | XmlNode.elem "item" _ c2 => do
            let d ← decodeDomainInfo {} c2
            .ok { acc with DomainList := acc.DomainList ++ [d] }
        | _ => .ok acc) dl
  | _ => .ok dl

/-- Unmarshal the children of a `return` element into a `DomainList`. -/
def decodeDomainList (init : DomainList) (children : List XmlNode) : Except String DomainList :=
  children.foldlM applyDomainListChild init

/-- Unmarshal one child element of `listDomainsResponse` into the accumulated
response: each `return` child refines `Return`, every other child is skipped. -/
def applyResponseChild (r : ListDomainsResponse) : XmlNode → Except String ListDomainsResponse
  | XmlNode.elem "return" _ ch => do
      let dl ← decodeDomainList r.Return ch
      .ok ⟨dl⟩
  | _ => .ok r

/-- Unmarshal one `Body` child into the `,any` field `Content`: the
`XMLName` tag of `ListDomainsResponse` forces the element name. -/
def decodeBodyChild (r : ListDomainsResponse) : XmlNode → Except String ListDomainsResponse
  | XmlNode.elem name _ ch =>
      if name = "listDomainsResponse" then ch.foldlM applyResponseChild r
      else .error ("expected element type listDomainsResponse but have " ++ name)
  | XmlNode.text _ => .ok r

/-- Unmarshal one envelope child: `Body` elements feed the body field, other
children are skipped. -/
def applyEnvelopeChild (r : ListDomainsResponse) : XmlNode → Except String ListDomainsResponse
  | XmlNode.elem "Body" _ ch => ch.foldlM decodeBodyChild r
  | _ => .ok r

/-- Unmarshal the root element into `apiSOAPEnvelope`: the `XMLName` tag
requires the name `Envelope`. -/
def decodeEnvelope : XmlNode → Except String ListDomainsResponse
  | XmlNode.elem name _ ch =>
      if name = "Envelope" then ch.foldlM applyEnvelopeChild {}
      else .error ("expected element type Envelope but have " ++ name)
  | XmlNode.text _ => .error "EOF"

/-- Mirror of `UnmarshalSOAPResponse`: an XML syntax error (`none`) or the
envelope unmarshal; errors are wrapped, as by `fmt.Errorf`. -/
def unmarshalSOAPResponse : Option XmlNode → Except String ListDomainsResponse
  | none => .error "failed to unmarshal SOAP response: XML syntax error"
  | some root =>
      match decodeEnvelope root with
      | .error e => .error ("failed to unmarshal SOAP response: " ++ e)
      | .ok r => .ok r

/-- Boolean error discriminator for `Except`. -/
def exceptIsError : Except String ListDomainsResponse → Bool
  | .error _ => true
  | .ok _ => false

example :
    unmarshalSOAPResponse (some (XmlNode.elem "Envelope" []
      [XmlNode.elem "Body" []
        [XmlNode.elem "listDomainsResponse" []
          [XmlNode.elem "return" []
            [XmlNode.elem "status" [] [XmlNode.text "OK"],
             XmlNode.elem "domainList" []
               [XmlNode.elem "item" []
                 [XmlNode.elem "domainName" [] [XmlNode.text "example.com"],
                  XmlNode.elem "status" [] [XmlNode.text "OK"],
                  XmlNode.elem "autoRenew" [] [XmlNode.text "1"],
                  XmlNode.elem "nameServers" []
                    [XmlNode.elem "item" [] [XmlNode.text "ns1.example.com"],
                     XmlNode.elem "item" [] [XmlNode.text "ns2.example.com"]]]]]]]])) =
    Except.ok
      ⟨⟨⟨"OK", ""⟩,
        [{ Status := "OK", DomainName := "example.com", AutoRenew := 1,
           NameServers := ["ns1.example.com", "ns2.example.com"] }]⟩⟩ := by
  rfl

example :
    unmarshalSOAPResponse (some (XmlNode.elem "Envelope" [] [])) =
      Except.ok emptyListDomainsResponse := by rfl

example :
    exceptIsError (unmarshalSOAPResponse (some (XmlNode.elem "Envelope" []
      [XmlNode.elem "Body" [] [XmlNode.elem "wrongName" [] []]]))) = true := by rfl

example :
    exceptIsError (unmarshalSOAPResponse (some (XmlNode.elem "NotEnvelope" [] []))) = true := by
  rfl

example : exceptIsError (unmarshalSOAPResponse none) = true := by rfl

example :
    exceptIsError (unmarshalSOAPResponse (some (XmlNode.elem "Envelope" []
      [XmlNode.elem "Body" []
        [XmlNode.elem "listDomainsResponse" []
          [XmlNode.elem "return" []
            [XmlNode.elem "domainList" []
              [XmlNode.elem "item" []
                [XmlNode.elem "autoRenew" [] [XmlNode.text "yes"]]]]]]]))) = true := by rfl

/-! ## TTL cache (`getDomains` of the exporter main package)

The package-level variables `listDomainsResponse` and `cacheExpires` form the
cache state.  A call reads the clock (`now`, in Unix seconds; the two
`time.Now()` reads of one call are modelled as a single instant), and the
outcome of `SendSOAPRequest` followed by `UnmarshalSOAPResponse` enters as an
`Except RefreshError` value. -/

/-- The two ways a refresh can fail in `getDomains`: `SendSOAPRequest`
returning an error, or `UnmarshalSOAPResponse` returning an error. -/
inductive RefreshError where
  | transport
  | decode
  deriving DecidableEq

/-- The package-level cache variables of the exporter main package. -/
structure CacheState where
  listDomainsResponse : ListDomainsResponse
  cacheExpires : Int
  deriving DecidableEq

/-- Process start: Go zero values for both package-level variables. -/
def initialCacheState : CacheState := ⟨emptyListDomainsResponse, 0⟩

/-- Result of one `getDomains` call: the cache variables afterwards, the
returned response, and whether a request was sent upstream. -/
structure GetDomainsResult where
  state : CacheState
  response : ListDomainsResponse
  sentRequest : Bool
  deriving DecidableEq

/-- Mirror of `getDomains`: return the cached response while
`cacheExpires > now`; otherwise send the request, return the Go zero-value
response on any failure without touching the cache variables, and on success
store the response, set `cacheExpires = now + ttl`, and return it. -/
def getDomains (st : CacheState) (now ttl : Int)
    (fetch : Except RefreshError ListDomainsResponse) : GetDomainsResult :=
  if st.cacheExpires > now then ⟨st, st.listDomainsResponse, false⟩
  else
    match fetch with
    | .error _ => ⟨st, emptyListDomainsResponse, true⟩
    | .ok r => ⟨⟨r, now + ttl⟩, r, true⟩

/-! ## Interleaved executions of the unsynchronized `getDomains`

The Go code guards the cache variables with no mutex, while the HTTP server
serves scrapes concurrently.  Two callers are modelled, each executing the
statements of `getDomains` in atomic pieces: first the freshness check
(`cacheExpires > time.Now().Unix()`), then — when the check saw a stale
cache — the upstream request together with the store of both variables.
`upstreamRequests` counts calls of `SendSOAPRequest`. -/

/-- Progress of one caller through the statements of `getDomains`. -/
inductive CallerPhase where
  | ready
  | needsFetch
  | finished (result : ListDomainsResponse)
  deriving DecidableEq

/-- Shared cache variables plus the two callers' positions and the number of
upstream requests issued. -/
structure ConcurrentState where
  cache : CacheState
  phaseA : CallerPhase
  phaseB : CallerPhase
  upstreamRequests : Nat
  deriving DecidableEq

/-- Both callers about to run `getDomains` on given cache variables. -/
def concurrentStart (cache : CacheState) : ConcurrentState :=
  ⟨cache, CallerPhase.ready, CallerPhase.ready, 0⟩

/-- Advance one caller (`true` picks caller A) by one atomic piece of
`getDomains`; `fetched` is the response the upstream returns during this
run (a successful refresh). -/
def concStep (now ttl : Int) (fetched : ListDomainsResponse) (who : Bool)
    (s : ConcurrentState) : ConcurrentState :=
  let phase := if who then s.phaseA else s.phaseB
  match phase with
  | CallerPhase.ready =>
      let next :=
        if s.cache.cacheExpires > now then CallerPhase.finished s.cache.listDomainsResponse
        else CallerPhase.needsFetch
      if who then { s with phaseA := next } else { s with phaseB := next }
  | CallerPhase.needsFetch =>
      let s2 : ConcurrentState :=
        { s with cache := ⟨fetched, now + ttl⟩,
                 upstreamRequests := s.upstreamRequests + 1 }
      if who then { s2 with phaseA := CallerPhase.finished fetched }
      else { s2 with phaseB := CallerPhase.finished fetched }
  | CallerPhase.finished _ => s

/-- Run a schedule of caller turns from a state. -/
def runSchedule (now ttl : Int) (fetched : ListDomainsResponse)
    (schedule : List Bool) (s : ConcurrentState) : ConcurrentState :=
  schedule.foldl (fun acc who => concStep now ttl fetched who acc) s

/-! ## Concrete values used by witnesses and counterexamples -/

/-- A domain record with upstream status `OK` and two name servers. -/
def exampleDomainOK : DomainInfo :=
  { Status := "OK", DomainName := "example.com", DomainStatus := "ok",
    DomainExpiry := "2025-12-25 10:00:00", AutoRenew := 1,
    NameServers := ["ns1.example.com", "ns2.example.com"], DNSSECKeys := ["uuid-1"] }

/-- A domain record the upstream marks deleted (status not `OK`). -/
def exampleDomainDeleted : DomainInfo :=
  { Status := "ERR_DOMAIN_DELETED", ErrorMessage := "domain deleted",
    DomainName := "old.example.com", AutoRenew := 1,
    NameServers := ["ns1.example.com"], DNSSECKeys := ["uuid-2"] }

/-- A non-empty domain-list response holding `exampleDomainOK`. -/
def exampleResponse : ListDomainsResponse := ⟨⟨⟨"OK", ""⟩, [exampleDomainOK]⟩⟩

/-- A second successful response, with no domains in the list. -/
def exampleResponseB : ListDomainsResponse := ⟨⟨⟨"OK", ""⟩, []⟩⟩

/-! ## Claims -/

/-- Claim C1: `getDomains` returns the stored data without an upstream
request while the current time is strictly before `cacheExpires`; at or after
`cacheExpires` (and in particular from the never-populated initial state at
any non-negative time) it performs a refresh, and a successful refresh stores
the new data with `cacheExpires = now + ttl` and returns it. -/
theorem getDomains_freshness_refresh (st : CacheState) (now ttl : Int)
    (fetch : Except RefreshError ListDomainsResponse) :
    (now < st.cacheExpires →
        getDomains st now ttl fetch = ⟨st, st.listDomainsResponse, false⟩) ∧
    (st.cacheExpires ≤ now →
        (getDomains st now ttl fetch).sentRequest = true ∧
        ∀ r, fetch = Except.ok r →
          getDomains st now ttl fetch = ⟨⟨r, now + ttl⟩, r, true⟩) ∧
    (st = initialCacheState → 0 ≤ now →
        (getDomains st now ttl fetch).sentRequest = true) := by
  refine ⟨?_, ?_, ?_⟩
  · intro h
    simp [getDomains, h]
  · intro h
    have h' : ¬ st.cacheExpires > now := not_lt.mpr h
    refine ⟨?_, ?_⟩
    · cases fetch <;> simp [getDomains, h']
    · intro r hr
      subst hr
      simp [getDomains, h']
  · intro hst hnow
    subst hst
    have h' : ¬ (initialCacheState.cacheExpires > now) := by
      simp [initialCacheState]
      exact hnow
    cases fetch <;> simp [getDomains, h']

/-- Witness for C1 at concrete inputs: a fresh read at time 5 against
`cacheExpires = 10` returns the cached data without a request, and a stale
read exactly at time 10 with a successful fetch stores and returns the new
data with `cacheExpires = 3610`. -/
theorem getDomains_freshness_refresh_witness :
    getDomains ⟨exampleResponse, 10⟩ 5 3600 (Except.error RefreshError.transport) =
      ⟨⟨exampleResponse, 10⟩, exampleResponse, false⟩ ∧
    getDomains ⟨exampleResponse, 10⟩ 10 3600 (Except.ok exampleResponseB) =
      ⟨⟨exampleResponseB, 3610⟩, exampleResponseB, true⟩ := by
  constructor
  · exact (getDomains_freshness_refresh ⟨exampleResponse, 10⟩ 5 3600
      (Except.error RefreshError.transport)).1 (by decide)
  · exact ((getDomains_freshness_refresh ⟨exampleResponse, 10⟩ 10 3600
      (Except.ok exampleResponseB)).2.1 (by decide)).2 exampleResponseB rfl

/-- Claim C2: a failed refresh (transport or decode) makes `getDomains`
return the empty response with no domains, leaves the cache variables
untouched, and the scrape path still completes, projecting no samples. -/
theorem getDomains_refresh_failure_empty (st : CacheState) (now ttl : Int)
    (e : RefreshError) (h : st.cacheExpires ≤ now) :
    getDomains st now ttl (Except.error e) = ⟨st, emptyListDomainsResponse, true⟩ ∧
    emptyListDomainsResponse.Return.DomainList = [] ∧
    collect (getDomains st now ttl (Except.error e)).response = [] := by
  have h' : ¬ st.cacheExpires > now := not_lt.mpr h
  have h1 : getDomains st now ttl (Except.error e) = ⟨st, emptyListDomainsResponse, true⟩ := by
    simp [getDomains, h']
  exact ⟨h1, rfl, by rw [h1]; rfl⟩

/-- Witness for C2: a stale cache holding data, refresh failing in transport. -/
theorem getDomains_refresh_failure_empty_witness :
    getDomains ⟨exampleResponse, 10⟩ 10 3600 (Except.error RefreshError.transport) =
      ⟨⟨exampleResponse, 10⟩, emptyListDomainsResponse, true⟩ ∧
    emptyListDomainsResponse.Return.DomainList = [] ∧
    collect (getDomains ⟨exampleResponse, 10⟩ 10 3600
      (Except.error RefreshError.transport)).response = [] :=
  getDomains_refresh_failure_empty ⟨exampleResponse, 10⟩ 10 3600 RefreshError.transport
    (by decide)

/-- Counterexample to C3: with a populated cache (`exampleResponse`) whose
entry is stale at time 100, a failed refresh makes `getDomains` return the
empty response, not the previously cached data. -/
theorem getDomains_failure_fallback_counterexample :
    (getDomains ⟨exampleResponse, 100⟩ 100 3600
        (Except.error RefreshError.transport)).response = emptyListDomainsResponse ∧
    (getDomains ⟨exampleResponse, 100⟩ 100 3600
        (Except.error RefreshError.transport)).response ≠ exampleResponse := by
  refine ⟨rfl, ?_⟩
  decide

/-- Claim C3 as amended: after a failed refresh of a stale populated cache,
`getDomains` returns the empty response for that call (not the prior data),
while the stored entry and its `cacheExpires` are left untouched, so every
subsequent call at the same or a later time retries with an upstream
request. -/
theorem getDomains_failure_keeps_entry (st : CacheState) (now ttl : Int)
    (e : RefreshError) (h : st.cacheExpires ≤ now) :
    (getDomains st now ttl (Except.error e)).state = st ∧
    (getDomains st now ttl (Except.error e)).response = emptyListDomainsResponse ∧
    ∀ now2 fetch2, now ≤ now2 →
      (getDomains (getDomains st now ttl (Except.error e)).state now2 ttl
        fetch2).sentRequest = true := by
  have h' : ¬ st.cacheExpires > now := not_lt.mpr h
  have h1 : getDomains st now ttl (Except.error e) = ⟨st, emptyListDomainsResponse, true⟩ := by
    simp [getDomains, h']
  refine ⟨by rw [h1], by rw [h1], ?_⟩
  intro now2 fetch2 h2
  rw [h1]
  have h2' : ¬ st.cacheExpires > now2 := not_lt.mpr (le_trans h h2)
  cases fetch2 <;> simp [getDomains, h2']

/-- Witness for C3 as amended, at the inputs of the counterexample. -/
theorem getDomains_failure_keeps_entry_witness :
    (getDomains ⟨exampleResponse, 100⟩ 100 3600
        (Except.error RefreshError.transport)).state = ⟨exampleResponse, 100⟩ ∧
    (getDomains ⟨exampleResponse, 100⟩ 100 3600
        (Except.error RefreshError.transport)).response = emptyListDomainsResponse ∧
    (getDomains (getDomains ⟨exampleResponse, 100⟩ 100 3600
        (Except.error RefreshError.transport)).state 100 3600
        (Except.ok exampleResponseB)).sentRequest = true := by
  obtain ⟨h1, h2, h3⟩ := getDomains_failure_keeps_entry ⟨exampleResponse, 100⟩ 100 3600
    RefreshError.transport (by decide)
  exact ⟨h1, h2, h3 100 (Except.ok exampleResponseB) (by decide)⟩

/-- Claim C4: a domain record whose status is not exactly `OK` contributes no
sample at all — dropping it from the response leaves the projected sample
list unchanged — and projection is a total function, raising no error. -/
theorem collect_skips_non_ok (d : DomainInfo) (common : SOAPResponseCommon)
    (rest : List DomainInfo) (h : d.Status ≠ "OK") :
    collectDomain d = [] ∧
    collect ⟨⟨common, d :: rest⟩⟩ = collect ⟨⟨common, rest⟩⟩ := by
  have h1 : collectDomain d = [] := by simp [collectDomain, h]
  exact ⟨h1, by simp [collect, h1]⟩

/-- Witness for C4: a deleted domain with auto-renew set, a name server and
a DNSSEC key still projects nothing. -/
theorem collect_skips_non_ok_witness :
    collectDomain exampleDomainDeleted = [] ∧
    collect ⟨⟨⟨"OK", ""⟩, [exampleDomainDeleted, exampleDomainOK]⟩⟩ =
      collect ⟨⟨⟨"OK", ""⟩, [exampleDomainOK]⟩⟩ :=
  collect_skips_non_ok exampleDomainDeleted ⟨"OK", ""⟩ [exampleDomainOK] (by decide)

/-- Claim C5: a record with status `OK` projects exactly one auto-renew
sample (value `autoRenew`, label `domain`), one DNSSEC-key-count sample
(value `len(dnssecKeys)`, label `domain`), one expiry sample (value derived
from `domainExpiry`, labels `domain` and registry status) and one
name-server-info sample of value 1 per name server (labels `domain` and the
hostname); two name servers give exactly two name-server-info samples. -/
theorem collectDomain_ok_samples (d : DomainInfo) (h : d.Status = "OK") :
    collectDomain d =
      ⟨"domain_auto_renew_enable", d.AutoRenew, [("domain", d.DomainName)]⟩ ::
      ⟨"domain_dnssec_key_count", (d.DNSSECKeys.length : Int), [("domain", d.DomainName)]⟩ ::
      ⟨"domain_expiry_timestamp_seconds", dateStringToTimestamp d.DomainExpiry,
        [("domain", d.DomainName), ("status", d.DomainStatus)]⟩ ::
      d.NameServers.map (fun server =>
        ⟨"domain_name_server_info", 1, [("domain", d.DomainName), ("name_server_info", server)]⟩) ∧
    (d.NameServers.length = 2 →
      ((collectDomain d).filter
        (fun smp => smp.name = "domain_name_server_info")).length = 2) := by
  have h1 : collectDomain d =
      ⟨"domain_auto_renew_enable", d.AutoRenew, [("domain", d.DomainName)]⟩ ::
      ⟨"domain_dnssec_key_count", (d.DNSSECKeys.length : Int), [("domain", d.DomainName)]⟩ ::
      ⟨"domain_expiry_timestamp_seconds", dateStringToTimestamp d.DomainExpiry,
        [("domain", d.DomainName), ("status", d.DomainStatus)]⟩ ::
      d.NameServers.map (fun server =>
        ⟨"domain_name_server_info", 1,
          [("domain", d.DomainName), ("name_server_info", server)]⟩) := by
    simp [collectDomain, h]
  refine ⟨h1, ?_⟩
  intro hlen
  rw [h1]
  have hmap : ∀ l : List String,
      ((l.map (fun server => (⟨"domain_name_server_info", 1,
          [("domain", d.DomainName), ("name_server_info", server)]⟩ : Sample))).filter
        (fun smp => smp.name = "domain_name_server_info")).length = l.length := by
    intro l
    induction l with
    | nil => rfl
    | cons a t ih => simpa [List.filter] using ih
  simp [List.filter, hmap d.NameServers, hlen]

/-- Witness for C5 on `exampleDomainOK`, which has two name servers. -/
theorem collectDomain_ok_samples_witness :
    collectDomain exampleDomainOK =
      ⟨"domain_auto_renew_enable", exampleDomainOK.AutoRenew,
        [("domain", exampleDomainOK.DomainName)]⟩ ::
      ⟨"domain_dnssec_key_count", (exampleDomainOK.DNSSECKeys.length : Int),
        [("domain", exampleDomainOK.DomainName)]⟩ ::
      ⟨"domain_expiry_timestamp_seconds", dateStringToTimestamp exampleDomainOK.DomainExpiry,
        [("domain", exampleDomainOK.DomainName), ("status", exampleDomainOK.DomainStatus)]⟩ ::
      exampleDomainOK.NameServers.map (fun server =>
        ⟨"domain_name_server_info", 1,
          [("domain", exampleDomainOK.DomainName), ("name_server_info", server)]⟩) ∧
    ((collectDomain exampleDomainOK).filter
      (fun smp => smp.name = "domain_name_server_info")).length = 2 := by
  obtain ⟨h1, h2⟩ := collectDomain_ok_samples exampleDomainOK rfl
  exact ⟨h1, h2 rfl⟩

/-- Claim C7: for every credential pair the encoded request carries the XML
declaration and is the envelope with the three namespace declarations, whose
body holds a single `ns1:listDomains` element wrapping one `param` container
typed `ns2:Map`, holding the `apiKey` item followed by the `resellerID`
item, each as key/value element pairs. -/
theorem createSOAPRequest_envelope_structure (r : ListDomainsRequest) :
    createSOAPRequest r =
      ⟨true,
       [XmlToken.startTag "Envelope"
          [("xmlns:SOAP-ENV", "http://schemas.xmlsoap.org/soap/envelope/"),
           ("xmlns:ns1", "http://api.synergywholesale.com"),
           ("xmlns:ns2", "http://xml.apache.org/xml-soap")],
        XmlToken.startTag "Body" [],
        XmlToken.startTag "ns1:listDomains" [],
        XmlToken.startTag "param" [("xsi:type", "ns2:Map")],
        XmlToken.startTag "item" [],
        XmlToken.startTag "key" [], XmlToken.chardata "apiKey", XmlToken.endTag "key",
        XmlToken.startTag "value" [], XmlToken.chardata r.ApiKey, XmlToken.endTag "value",
        XmlToken.endTag "item",
        XmlToken.startTag "item" [],
        XmlToken.startTag "key" [], XmlToken.chardata "resellerID", XmlToken.endTag "key",
        XmlToken.startTag "value" [], XmlToken.chardata r.ResellerID, XmlToken.endTag "value",
        XmlToken.endTag "item",
        XmlToken.endTag "param", XmlToken.endTag "ns1:listDomains",
        XmlToken.endTag "Body", XmlToken.endTag "Envelope"]⟩ := rfl

/-- Counterexample to C8: the well-formed document `<Envelope></Envelope>`
lacks the whole `Body`/`listDomainsResponse`/`return` nesting yet decodes
without error, to the zero-value response. -/
theorem unmarshal_succeeds_without_nesting :
    unmarshalSOAPResponse (some (XmlNode.elem "Envelope" [] [])) =
      Except.ok emptyListDomainsResponse := rfl

/-- Claim C8 as amended: decoding fails on bytes that are not well-formed
XML, on a root element not named `Envelope`, and on a `Body` child element
not named `listDomainsResponse`; with the expected
`Envelope`/`Body`/`listDomainsResponse`/`return` nesting and decodable
content it succeeds — but it also succeeds when `Body` (and everything
below) is simply absent, leaving the response at its zero value. -/
theorem unmarshal_error_conditions (rootName : String) (attrs : List (String × String))
    (ch : List XmlNode) (childName : String) (a2 : List (String × String))
    (c2 : List XmlNode) (hroot : rootName ≠ "Envelope")
    (hchild : childName ≠ "listDomainsResponse") :
    exceptIsError (unmarshalSOAPResponse none) = true ∧
    exceptIsError (unmarshalSOAPResponse (some (XmlNode.elem rootName attrs ch))) = true ∧
    exceptIsError (unmarshalSOAPResponse (some (XmlNode.elem "Envelope" attrs
      [XmlNode.elem "Body" [] [XmlNode.elem childName a2 c2]]))) = true ∧
    (∀ st em : String,
      unmarshalSOAPResponse (some (XmlNode.elem "Envelope" attrs
        [XmlNode.elem "Body" []
          [XmlNode.elem "listDomainsResponse" []
            [XmlNode.elem "return" []
              [XmlNode.elem "status" [] [XmlNode.text st],
               XmlNode.elem "errorMessage" [] [XmlNode.text em]]]]])) =
        Except.ok ⟨⟨⟨st, em⟩, []⟩⟩) ∧
    unmarshalSOAPResponse (some (XmlNode.elem "Envelope" attrs [])) =
      Except.ok emptyListDomainsResponse := by
  refine ⟨rfl, ?_, ?_, ?_, ?_⟩
  · simp [unmarshalSOAPResponse, decodeEnvelope, hroot, exceptIsError]
  · simp [unmarshalSOAPResponse, decodeEnvelope, applyEnvelopeChild, decodeBodyChild,
      hchild, exceptIsError, List.foldlM]
  · intro st em
    simp [unmarshalSOAPResponse, decodeEnvelope, applyEnvelopeChild, decodeBodyChild,
      applyResponseChild, decodeDomainList, applyDomainListChild, chardataOf,
      List.foldlM, emptyListDomainsResponse, Bind.bind, Except.bind, Pure.pure, Except.pure]
  · simp [unmarshalSOAPResponse, decodeEnvelope, List.foldlM, emptyListDomainsResponse,
      Pure.pure, Except.pure]

/-- Witness for C8 as amended: syntax errors, a `Fault` root, a `Body` child
named `other`, a complete nesting carrying a status, and a bare envelope. -/
theorem unmarshal_error_conditions_witness :
    exceptIsError (unmarshalSOAPResponse none) = true ∧
    exceptIsError (unmarshalSOAPResponse (some (XmlNode.elem "Fault" [] []))) = true ∧
    exceptIsError (unmarshalSOAPResponse (some (XmlNode.elem "Envelope" []
      [XmlNode.elem "Body" [] [XmlNode.elem "other" [] []]]))) = true ∧
    unmarshalSOAPResponse (some (XmlNode.elem "Envelope" []
      [XmlNode.elem "Body" []
        [XmlNode.elem "listDomainsResponse" []
          [XmlNode.elem "return" []
            [XmlNode.elem "status" [] [XmlNode.text "OK"],
             XmlNode.elem "errorMessage" [] [XmlNode.text ""]]]]])) =
      Except.ok ⟨⟨⟨"OK", ""⟩, []⟩⟩ ∧
    unmarshalSOAPResponse (some (XmlNode.elem "Envelope" [] [])) =
      Except.ok emptyListDomainsResponse := by
  obtain ⟨h1, h2, h3, h4, h5⟩ := unmarshal_error_conditions "Fault" [] [] "other" [] []
    (by decide) (by decide)
  exact ⟨h1, h2, h3, h4 "OK" "", h5⟩

/-- Claim C9 evaluated on the code: the unsynchronized `getDomains` lets two
callers racing on the cold cache both pass the freshness check before either
stores, so the run issues two upstream requests where the claim demands
exactly one. -/
theorem unsynchronized_getDomains_issues_two_requests :
    (runSchedule 0 3600 exampleResponse [true, false, true, false]
        (concurrentStart initialCacheState)).upstreamRequests = 2 ∧
    (runSchedule 0 3600 exampleResponse [true, false, true, false]
        (concurrentStart initialCacheState)).upstreamRequests ≠ 1 := by
  constructor
  · rfl
  · decide

/-- Claim C10: `Describe` announces only the auto-renew, expiry and
name-server descriptors; the DNSSEC-key-count metric is emitted by `Collect`
for every OK record but never described, so (for an OK record with at least
one name server) the described names form a strict subset of the emitted
names. -/
theorem describe_omits_dnssec_strict_subset (d : DomainInfo) (hOK : d.Status = "OK")
    (hns : d.NameServers ≠ []) :
    "domain_dnssec_key_count" ∈ (collectDomain d).map Sample.name ∧
    "domain_dnssec_key_count" ∉ describeMetricNames ∧
    ∀ n ∈ describeMetricNames, n ∈ (collectDomain d).map Sample.name := by
  obtain ⟨srv, rest2, hlist⟩ : ∃ srv rest2, d.NameServers = srv :: rest2 := by
    cases hl : d.NameServers with
    | nil => exact absurd hl hns
    | cons a t => exact ⟨a, t, rfl⟩
  refine ⟨?_, by decide, ?_⟩
  · simp [collectDomain, hOK]
  · intro n hn
    simp only [describeMetricNames, List.mem_cons, List.not_mem_nil, or_false] at hn
    rcases hn with h1 | h2 | h3
    · subst h1; simp [collectDomain, hOK]
    · subst h2; simp [collectDomain, hOK]
    · subst h3; simp [collectDomain, hOK, hlist]

/-- Witness for C10 on `exampleDomainOK`. -/
theorem describe_omits_dnssec_strict_subset_witness :
    "domain_dnssec_key_count" ∈ (collectDomain exampleDomainOK).map Sample.name ∧
    "domain_dnssec_key_count" ∉ describeMetricNames ∧
    ∀ n ∈ describeMetricNames, n ∈ (collectDomain exampleDomainOK).map Sample.name :=
  describe_omits_dnssec_strict_subset exampleDomainOK rfl (by decide)

end SynergyWholesaleExporter
